import Mathlib

/-!
Shallow embedding of the decision agent in `src/src/YourAgent.py` (repository
`wang-owen/AR_Day_2024`), together with theorems settling the specification
claims about it.

Conventions of the embedding:
* grid coordinates are unbounded integers (`ℤ`), positions are pairs `ℤ × ℤ`;
* Python lists of `[x, y]` pairs become `List (ℤ × ℤ)`, and `[x, y] in locs`
  becomes decidable list membership;
* the Python method `obstacle_at_loc` returns `True`, `True` or falls off the
  end returning `None`; since its result is only ever used as a truth value
  (`not self.obstacle_at_loc(...)`), it is embedded as a `Bool` where the
  implicit `None` is `false`;
* helper methods that may fall off the end of the function without returning
  (`move_to_x_target`, `move_to_y_target`) return `Option DriveMove`, with
  `none` for Python's implicit `None`;
* `get_next_move` mutates `self.target_pod_acquired`; it is embedded as a
  function returning the emitted move together with the updated agent state;
* the source computes the distance to a goal as `(dx**2 + dy**2) ** 0.5` and
  only ever compares distances with each other (and with the `-1` sentinel,
  which no such square root can equal since they are nonnegative).  Because
  the real square root is strictly monotone on nonnegative arguments, the
  selection loop is embedded with the squared distance `dx^2 + dy^2` as the
  comparison key: it selects exactly the same goal.  The theorems about goal
  selection state minimality in terms of `Real.sqrt` of the squared offsets,
  which is the idealized meaning of the source's `** 0.5`.
-/

/-- The `DriveMove` enumeration from `src.Constants` consumed by the
simulator: no-op, the four unit moves, and the advanced-mode lift/drop. -/
inductive DriveMove where
  | NONE
  | UP
  | DOWN
  | LEFT
  | RIGHT
  | LIFT_POD
  | DROP_POD
  deriving DecidableEq

/-- The fields of the per-tick `sensor_data` dict that `get_next_move`
actually reads.  (`FIELD_BOUNDARIES`, the legacy `GOAL_LOCATION` and
`DRIVE_LIFTED_POD_PAIRS` are accepted by the source but never consulted, so
they are omitted from the embedding.) -/
structure SensorData where
  DRIVE_LOCATIONS : List (ℤ × ℤ)
  POD_LOCATIONS : List (ℤ × ℤ)
  PLAYER_LOCATION : ℤ × ℤ
  GOAL_LOCATIONS : List (ℤ × ℤ)
  TARGET_POD_LOCATION : ℤ × ℤ

/-- The persistent state of `YourAgent`: the opaque game id and the two
booleans set up in `__init__` (lines 17-19 of the source). -/
structure YourAgent where
  game_id : ℤ
  need_to_find_target_pod : Bool
  target_pod_acquired : Bool
  deriving DecidableEq

/-- `YourAgent.__init__`: `need_to_find_target_pod` is the advanced-mode
flag, `target_pod_acquired` starts `False`. -/
def YourAgent.init (game_id : ℤ) (is_advanced_mode : Bool) : YourAgent :=
  { game_id := game_id
    need_to_find_target_pod := is_advanced_mode
    target_pod_acquired := false }

/-- `get_xy_distance` (line 139-140): the componentwise offset from
`(x1, y1)` to `(x2, y2)`. -/
def get_xy_distance (x1 y1 x2 y2 : ℤ) : ℤ × ℤ :=
  (x2 - x1, y2 - y1)

/-- `drive_at_loc` (lines 145-146): `[x, y] in drive_locs`. -/
def drive_at_loc (drive_locs : List (ℤ × ℤ)) (x y : ℤ) : Bool :=
  decide ((x, y) ∈ drive_locs)

/-- `pod_at_loc` (lines 148-149): `[x, y] in pod_locs`. -/
def pod_at_loc (pod_locs : List (ℤ × ℤ)) (x y : ℤ) : Bool :=
  decide ((x, y) ∈ pod_locs)

/-- `obstacle_at_loc` (lines 151-155): a drive always blocks, a pod blocks
only in advanced mode.  The Python function returns `None` (falsy) when
neither test fires; that case is `false` here. -/
def obstacle_at_loc (x y : ℤ) (drive_locs pod_locs : List (ℤ × ℤ))
    (is_advanced : Bool) : Bool :=
  drive_at_loc drive_locs x y || (is_advanced && pod_at_loc pod_locs x y)

/-- `move_to_x_target` (lines 157-165).  The source reads the advanced flag
from `self.need_to_find_target_pod`; here it is passed as `adv`. -/
def move_to_x_target (x_pos y_pos target_x : ℤ)
    (drive_locs pod_locs : List (ℤ × ℤ)) (adv : Bool) : Option DriveMove :=
  if target_x > 0 ∧ obstacle_at_loc (x_pos + 1) y_pos drive_locs pod_locs adv = false then
    some DriveMove.RIGHT
  else if target_x < 0 ∧ obstacle_at_loc (x_pos - 1) y_pos drive_locs pod_locs adv = false then
    some DriveMove.LEFT
  else
    none

/-- `move_to_y_target` (lines 167-175). -/
def move_to_y_target (x_pos y_pos target_y : ℤ)
    (drive_locs pod_locs : List (ℤ × ℤ)) (adv : Bool) : Option DriveMove :=
  if target_y > 0 ∧ obstacle_at_loc x_pos (y_pos + 1) drive_locs pod_locs adv = false then
    some DriveMove.UP
  else if target_y < 0 ∧ obstacle_at_loc x_pos (y_pos - 1) drive_locs pod_locs adv = false then
    some DriveMove.DOWN
  else
    none

/-- The squared Euclidean offset from the player to a goal: the comparison
key standing for the source's `get_raw_distance` value
`(dx**2 + dy**2) ** 0.5` (lines 142-143); see the header comment. -/
def dist_key (x_pos y_pos : ℤ) (g : ℤ × ℤ) : ℤ :=
  (get_xy_distance x_pos y_pos g.1 g.2).1 ^ 2 +
    (get_xy_distance x_pos y_pos g.1 g.2).2 ^ 2

/-- The `for goal in goals` loop of lines 84-98, with the running state
`(shortest_dist, goal_x, goal_y)` threaded explicitly.  The first branch is
the `shortest_dist == -1` sentinel test, the second is the strict
`shortest_dist > dist` comparison, otherwise the running best is kept. -/
def find_nearest_loop (x_pos y_pos : ℤ) :
    List (ℤ × ℤ) → ℤ → ℤ → ℤ → ℤ × ℤ × ℤ
  | [], shortest_dist, goal_x, goal_y => (shortest_dist, goal_x, goal_y)
  | goal :: rest, shortest_dist, goal_x, goal_y =>
    let d := get_xy_distance x_pos y_pos goal.1 goal.2
    let dist := d.1 ^ 2 + d.2 ^ 2
    if shortest_dist = -1 then
      find_nearest_loop x_pos y_pos rest dist d.1 d.2
    else if shortest_dist > dist then
      find_nearest_loop x_pos y_pos rest dist d.1 d.2
    else
      find_nearest_loop x_pos y_pos rest shortest_dist goal_x goal_y

/-- Lines 84-98 of `get_next_move`: the nearest-goal scan started from the
sentinel state `shortest_dist = goal_x = goal_y = -1`. -/
def find_nearest_goal (x_pos y_pos : ℤ) (goals : List (ℤ × ℤ)) : ℤ × ℤ × ℤ :=
  find_nearest_loop x_pos y_pos goals (-1) (-1) (-1)

/-- Lines 100-113 of `get_next_move` ("Send move instruction").  When
`abs goal_x > abs goal_y` the x-axis is attempted and then the y-axis; if
both fail, control falls through to lines 108-113, which re-attempt the
y-axis and then the x-axis (redundantly in that case).  Otherwise only
lines 108-113 run: y-axis first, then x-axis. -/
def send_move_instruction (x_pos y_pos goal_x goal_y : ℤ)
    (drive_locs pod_locs : List (ℤ × ℤ)) (adv : Bool) : Option DriveMove :=
  if abs goal_x > abs goal_y then
    match move_to_x_target x_pos y_pos goal_x drive_locs pod_locs adv with
    | some cmd => some cmd
    | none =>
      match move_to_y_target x_pos y_pos goal_y drive_locs pod_locs adv with
      | some cmd => some cmd
      | none =>
        match move_to_y_target x_pos y_pos goal_y drive_locs pod_locs adv with
        | some cmd => some cmd
        | none => move_to_x_target x_pos y_pos goal_x drive_locs pod_locs adv
  else
    match move_to_y_target x_pos y_pos goal_y drive_locs pod_locs adv with
    | some cmd => some cmd
    | none => move_to_x_target x_pos y_pos goal_x drive_locs pod_locs adv

/-- Lines 115-137 of `get_next_move` ("Move out of way of obstacle").  Note
that the `if goal_x != 0` block and the `if goal_y != 0` block are two
independent `if` statements in the source (line 126 is not an `elif`), so
the horizontal candidates are attempted even when `goal_x ≠ 0` and both
vertical candidates were blocked. -/
def side_step_move (x_pos y_pos goal_x goal_y : ℤ)
    (drive_locs pod_locs : List (ℤ × ℤ)) (adv : Bool) : DriveMove :=
  if goal_x ≠ 0 ∧ obstacle_at_loc x_pos (y_pos + 1) drive_locs pod_locs adv = false then
    DriveMove.UP
  else if goal_x ≠ 0 ∧ obstacle_at_loc x_pos (y_pos - 1) drive_locs pod_locs adv = false then
    DriveMove.DOWN
  else if goal_y ≠ 0 ∧ obstacle_at_loc (x_pos + 1) y_pos drive_locs pod_locs adv = false then
    DriveMove.RIGHT
  else if goal_y ≠ 0 ∧ obstacle_at_loc (x_pos - 1) y_pos drive_locs pod_locs adv = false then
    DriveMove.LEFT
  else
    DriveMove.NONE

/-- Lines 83-137 of `get_next_move`: nearest-goal selection followed by the
directional attempt and, when that yields nothing, the sidestep fallback
(ending in `DriveMove.NONE`). -/
def goal_seek_move (x_pos y_pos : ℤ)
    (goals drive_locs pod_locs : List (ℤ × ℤ)) (adv : Bool) : DriveMove :=
  let r := find_nearest_goal x_pos y_pos goals
  match send_move_instruction x_pos y_pos r.2.1 r.2.2 drive_locs pod_locs adv with
  | some cmd => cmd
  | none => side_step_move x_pos y_pos r.2.1 r.2.2 drive_locs pod_locs adv

/-- Lines 74-81 of `get_next_move`: the advanced-mode approach toward the
target pod.  Each candidate is gated by `drive_at_loc` only (not by
`obstacle_at_loc`): the source checks drives but not pods here. -/
def go_to_target_pod (x_pos y_pos dist_x dist_y : ℤ)
    (drive_locs : List (ℤ × ℤ)) : Option DriveMove :=
  if dist_x > 0 ∧ drive_at_loc drive_locs (x_pos + 1) y_pos = false then
    some DriveMove.RIGHT
  else if dist_x < 0 ∧ drive_at_loc drive_locs (x_pos - 1) y_pos = false then
    some DriveMove.LEFT
  else if dist_y > 0 ∧ drive_at_loc drive_locs x_pos (y_pos + 1) = false then
    some DriveMove.UP
  else if dist_y < 0 ∧ drive_at_loc drive_locs x_pos (y_pos - 1) = false then
    some DriveMove.DOWN
  else
    none

/-- `get_next_move` (lines 22-137): the per-tick decision.  Returns the
emitted `DriveMove` together with the updated agent state (the source
mutates `self.target_pod_acquired` in the lift branch; everything else
leaves the state unchanged).  The dead `if self.target_pod_acquired: pass`
of lines 67-68 has no effect and is not represented.  When the advanced
branch's four gated candidates all fail (and in the lift-condition's `else`)
control falls through to the goal-seeking code, exactly as in the source. -/
def get_next_move (self : YourAgent) (sensor_data : SensorData) :
    DriveMove × YourAgent :=
  let x_pos := sensor_data.PLAYER_LOCATION.1
  let y_pos := sensor_data.PLAYER_LOCATION.2
  let goals := sensor_data.GOAL_LOCATIONS
  let drive_locs := sensor_data.DRIVE_LOCATIONS
  let pod_locs := sensor_data.POD_LOCATIONS
  if self.need_to_find_target_pod then
    let d := get_xy_distance x_pos y_pos
      sensor_data.TARGET_POD_LOCATION.1 sensor_data.TARGET_POD_LOCATION.2
    if d.1 = 0 ∧ d.2 = 0 ∧ self.target_pod_acquired = false then
      (DriveMove.LIFT_POD, { self with target_pod_acquired := true })
    else
      match go_to_target_pod x_pos y_pos d.1 d.2 drive_locs with
      | some cmd => (cmd, self)
      | none =>
        (goal_seek_move x_pos y_pos goals drive_locs pod_locs
          self.need_to_find_target_pod, self)
  else
    (goal_seek_move x_pos y_pos goals drive_locs pod_locs
      self.need_to_find_target_pod, self)

/-- Iterating `get_next_move` over a list of per-tick snapshots, collecting
the emitted moves (the "sequence of calls on one agent instance" of the
claims). -/
def run_agent : YourAgent → List SensorData → List DriveMove
  | _, [] => []
  | s, sd :: rest =>
    let step := get_next_move s sd
    step.1 :: run_agent step.2 rest

/-- The tile a movement move steps onto from `(x, y)`; `none` for the
non-movement moves. -/
def move_target_tile (x y : ℤ) : DriveMove → Option (ℤ × ℤ)
  | DriveMove.UP => some (x, y + 1)
  | DriveMove.DOWN => some (x, y - 1)
  | DriveMove.RIGHT => some (x + 1, y)
  | DriveMove.LEFT => some (x - 1, y)
  | _ => none

/-! ### Helper lemmas characterizing the branches of the decision code -/

lemma obstacle_at_loc_false_iff {x y : ℤ} {dr po : List (ℤ × ℤ)} {adv : Bool} :
    obstacle_at_loc x y dr po adv = false ↔
      drive_at_loc dr x y = false ∧ (adv = true → pod_at_loc po x y = false) := by
  cases adv <;> simp [obstacle_at_loc]

lemma obstacle_at_loc_true_iff {x y : ℤ} {dr po : List (ℤ × ℤ)} {adv : Bool} :
    obstacle_at_loc x y dr po adv = true ↔
      ((x, y) ∈ dr ∨ (adv = true ∧ (x, y) ∈ po)) := by
  cases adv <;> simp [obstacle_at_loc, drive_at_loc, pod_at_loc]

lemma move_to_x_target_some {x y tx : ℤ} {dr po : List (ℤ × ℤ)} {adv : Bool}
    {m : DriveMove} (h : move_to_x_target x y tx dr po adv = some m) :
    (m = DriveMove.RIGHT ∧ 0 < tx ∧
      obstacle_at_loc (x + 1) y dr po adv = false) ∨
    (m = DriveMove.LEFT ∧ tx < 0 ∧
      obstacle_at_loc (x - 1) y dr po adv = false) := by
  unfold move_to_x_target at h
  split_ifs at h with h1 h2 <;> simp_all

lemma move_to_y_target_some {x y ty : ℤ} {dr po : List (ℤ × ℤ)} {adv : Bool}
    {m : DriveMove} (h : move_to_y_target x y ty dr po adv = some m) :
    (m = DriveMove.UP ∧ 0 < ty ∧
      obstacle_at_loc x (y + 1) dr po adv = false) ∨
    (m = DriveMove.DOWN ∧ ty < 0 ∧
      obstacle_at_loc x (y - 1) dr po adv = false) := by
  unfold move_to_y_target at h
  split_ifs at h with h1 h2 <;> simp_all

lemma move_to_x_target_zero {x y : ℤ} {dr po : List (ℤ × ℤ)} {adv : Bool} :
    move_to_x_target x y 0 dr po adv = none := by
  unfold move_to_x_target
  split_ifs with h1 h2 <;> first | rfl | omega

lemma move_to_y_target_zero {x y : ℤ} {dr po : List (ℤ × ℤ)} {adv : Bool} :
    move_to_y_target x y 0 dr po adv = none := by
  unfold move_to_y_target
  split_ifs with h1 h2 <;> first | rfl | omega

lemma send_move_instruction_some {x y gx gy : ℤ} {dr po : List (ℤ × ℤ)}
    {adv : Bool} {m : DriveMove}
    (h : send_move_instruction x y gx gy dr po adv = some m) :
    move_to_x_target x y gx dr po adv = some m ∨
      move_to_y_target x y gy dr po adv = some m := by
  unfold send_move_instruction at h
  split_ifs at h <;>
    rcases hx : move_to_x_target x y gx dr po adv with _ | mx <;>
    rcases hy : move_to_y_target x y gy dr po adv with _ | my <;>
    simp_all

lemma go_to_target_pod_some {x y dx dy : ℤ} {dr : List (ℤ × ℤ)}
    {m : DriveMove} (h : go_to_target_pod x y dx dy dr = some m) :
    (m = DriveMove.RIGHT ∧ 0 < dx ∧ drive_at_loc dr (x + 1) y = false) ∨
    (m = DriveMove.LEFT ∧ dx < 0 ∧ drive_at_loc dr (x - 1) y = false) ∨
    (m = DriveMove.UP ∧ 0 < dy ∧ drive_at_loc dr x (y + 1) = false) ∨
    (m = DriveMove.DOWN ∧ dy < 0 ∧ drive_at_loc dr x (y - 1) = false) := by
  unfold go_to_target_pod at h
  split_ifs at h <;> simp_all

lemma side_step_move_cases (x y gx gy : ℤ) (dr po : List (ℤ × ℤ)) (adv : Bool) :
    (side_step_move x y gx gy dr po adv = DriveMove.UP ∧
      obstacle_at_loc x (y + 1) dr po adv = false) ∨
    (side_step_move x y gx gy dr po adv = DriveMove.DOWN ∧
      obstacle_at_loc x (y - 1) dr po adv = false) ∨
    (side_step_move x y gx gy dr po adv = DriveMove.RIGHT ∧
      obstacle_at_loc (x + 1) y dr po adv = false) ∨
    (side_step_move x y gx gy dr po adv = DriveMove.LEFT ∧
      obstacle_at_loc (x - 1) y dr po adv = false) ∨
    side_step_move x y gx gy dr po adv = DriveMove.NONE := by
  unfold side_step_move
  split_ifs <;> simp_all

lemma goal_seek_move_cases (x y : ℤ) (goals dr po : List (ℤ × ℤ)) (adv : Bool) :
    (goal_seek_move x y goals dr po adv = DriveMove.UP ∧
      obstacle_at_loc x (y + 1) dr po adv = false) ∨
    (goal_seek_move x y goals dr po adv = DriveMove.DOWN ∧
      obstacle_at_loc x (y - 1) dr po adv = false) ∨
    (goal_seek_move x y goals dr po adv = DriveMove.RIGHT ∧
      obstacle_at_loc (x + 1) y dr po adv = false) ∨
    (goal_seek_move x y goals dr po adv = DriveMove.LEFT ∧
      obstacle_at_loc (x - 1) y dr po adv = false) ∨
    goal_seek_move x y goals dr po adv = DriveMove.NONE := by
  unfold goal_seek_move
  rcases hs : send_move_instruction x y
      (find_nearest_goal x y goals).2.1 (find_nearest_goal x y goals).2.2
      dr po adv with _ | cmd
  · simp only [hs]
    exact side_step_move_cases x y
      (find_nearest_goal x y goals).2.1 (find_nearest_goal x y goals).2.2 dr po adv
  · simp only [hs]
    rcases send_move_instruction_some hs with hx | hy
    · rcases move_to_x_target_some hx with ⟨hm, _, hob⟩ | ⟨hm, _, hob⟩ <;>
        subst hm <;> tauto
    · rcases move_to_y_target_some hy with ⟨hm, _, hob⟩ | ⟨hm, _, hob⟩ <;>
        subst hm <;> tauto

lemma dist_key_nonneg (x y : ℤ) (g : ℤ × ℤ) : 0 ≤ dist_key x y g := by
  unfold dist_key
  positivity

lemma sq_add_sq_ne_neg_one (a b : ℤ) : ¬(a ^ 2 + b ^ 2 = -1) := by
  have h : 0 ≤ a ^ 2 + b ^ 2 := by positivity
  omega

lemma dist_key_def (x y : ℤ) (g : ℤ × ℤ) :
    dist_key x y g =
      (get_xy_distance x y g.1 g.2).1 ^ 2 + (get_xy_distance x y g.1 g.2).2 ^ 2 :=
  rfl

/-- Correctness of the goal-scan loop, for any accumulator that is the
squared offset of a previously scanned candidate: either the accumulator
survives and is at most every scanned key, or some scanned goal strictly
improves on it, and the selected one is a minimum that is strictly below
every key before it. -/
lemma find_nearest_loop_spec (x_pos y_pos : ℤ) :
    ∀ (goals : List (ℤ × ℤ)) (gx gy : ℤ),
      (find_nearest_loop x_pos y_pos goals (gx ^ 2 + gy ^ 2) gx gy
          = (gx ^ 2 + gy ^ 2, gx, gy)
        ∧ ∀ g ∈ goals, gx ^ 2 + gy ^ 2 ≤ dist_key x_pos y_pos g)
      ∨ (∃ i, ∃ hi : i < goals.length,
          find_nearest_loop x_pos y_pos goals (gx ^ 2 + gy ^ 2) gx gy
            = (dist_key x_pos y_pos (goals.get ⟨i, hi⟩),
               get_xy_distance x_pos y_pos (goals.get ⟨i, hi⟩).1 (goals.get ⟨i, hi⟩).2)
          ∧ dist_key x_pos y_pos (goals.get ⟨i, hi⟩) < gx ^ 2 + gy ^ 2
          ∧ (∀ g ∈ goals, dist_key x_pos y_pos (goals.get ⟨i, hi⟩) ≤ dist_key x_pos y_pos g)
          ∧ (∀ j, ∀ hj : j < goals.length, j < i →
              dist_key x_pos y_pos (goals.get ⟨i, hi⟩) <
                dist_key x_pos y_pos (goals.get ⟨j, hj⟩))) := by
  intro goals
  induction goals with
  | nil =>
    intro gx gy
    left
    exact ⟨rfl, by simp⟩
  | cons g rest ih =>
    intro gx gy
    have hacc := sq_add_sq_ne_neg_one gx gy
    have hkey := dist_key_def x_pos y_pos g
    by_cases hlt : gx ^ 2 + gy ^ 2 >
        (get_xy_distance x_pos y_pos g.1 g.2).1 ^ 2 +
          (get_xy_distance x_pos y_pos g.1 g.2).2 ^ 2
    · -- the head goal strictly improves: the loop continues with its key
      have hstep : find_nearest_loop x_pos y_pos (g :: rest) (gx ^ 2 + gy ^ 2) gx gy
          = find_nearest_loop x_pos y_pos rest
              ((get_xy_distance x_pos y_pos g.1 g.2).1 ^ 2 +
                (get_xy_distance x_pos y_pos g.1 g.2).2 ^ 2)
              (get_xy_distance x_pos y_pos g.1 g.2).1
              (get_xy_distance x_pos y_pos g.1 g.2).2 := by
        simp only [find_nearest_loop]
        rw [if_neg hacc, if_pos hlt]
      rcases ih (get_xy_distance x_pos y_pos g.1 g.2).1
          (get_xy_distance x_pos y_pos g.1 g.2).2 with
        ⟨heq, hmin⟩ | ⟨i, hi, heq, hless, hmin, hstrict⟩
      · right
        refine ⟨0, by simp, ?_, ?_, ?_, ?_⟩
        · rw [hstep, heq]
          simp [List.get_cons_zero, dist_key_def, get_xy_distance]
        · simpa [List.get_cons_zero, hkey] using hlt
        · intro g' hg'
          rcases List.mem_cons.mp hg' with h | h
          · subst h
            simp [List.get_cons_zero]
          · simpa [List.get_cons_zero, hkey] using hmin g' h
        · intro j hj hj0
          omega
      · right
        refine ⟨i + 1, by simpa using Nat.succ_lt_succ hi, ?_, ?_, ?_, ?_⟩
        · rw [hstep, heq]
          simp
        · have : dist_key x_pos y_pos (rest.get ⟨i, hi⟩) < gx ^ 2 + gy ^ 2 :=
            lt_trans (by simpa [hkey] using hless) (by simpa [hkey] using hlt)
          simpa using this
        · intro g' hg'
          rcases List.mem_cons.mp hg' with h | h
          · subst h
            have := le_of_lt hless
            simpa [hkey] using this
          · simpa using hmin g' h
        · intro j hj hji
          match j, hj with
          | 0, hj =>
            simpa [List.get_cons_zero, hkey] using hless
          | j' + 1, hj =>
            have hj' : j' < rest.length := by simpa using hj
            have := hstrict j' hj' (by omega)
            simpa using this
    · -- the head goal does not improve: the accumulator is kept
      have hstep : find_nearest_loop x_pos y_pos (g :: rest) (gx ^ 2 + gy ^ 2) gx gy
          = find_nearest_loop x_pos y_pos rest (gx ^ 2 + gy ^ 2) gx gy := by
        simp only [find_nearest_loop]
        rw [if_neg hacc, if_neg hlt]
      have hle : gx ^ 2 + gy ^ 2 ≤ dist_key x_pos y_pos g := by
        rw [hkey]
        omega
      rcases ih gx gy with ⟨heq, hmin⟩ | ⟨i, hi, heq, hless, hmin, hstrict⟩
      · left
        refine ⟨by rw [hstep, heq], ?_⟩
        intro g' hg'
        rcases List.mem_cons.mp hg' with h | h
        · subst h
          exact hle
        · exact hmin g' h
      · right
        refine ⟨i + 1, by simpa using Nat.succ_lt_succ hi, ?_, ?_, ?_, ?_⟩
        · rw [hstep, heq]
          simp
        · simpa using hless
        · intro g' hg'
          rcases List.mem_cons.mp hg' with h | h
          · have h2 : dist_key x_pos y_pos (rest.get ⟨i, hi⟩) < dist_key x_pos y_pos g' := by
              rw [h]
              exact lt_of_lt_of_le hless hle
            simpa using le_of_lt h2
          · simpa using hmin g' h
        · intro j hj hji
          match j, hj with
          | 0, hj =>
            have h2 : dist_key x_pos y_pos (rest.get ⟨i, hi⟩) < dist_key x_pos y_pos g :=
              lt_of_lt_of_le hless hle
            simpa [List.get_cons_zero] using h2
          | j' + 1, hj =>
            have hj' : j' < rest.length := by simpa using hj
            have := hstrict j' hj' (by omega)
            simpa using this

/-- The nearest-goal scan on a nonempty list: it returns the squared key and
offset of a goal of minimal key, strictly below every earlier key. -/
lemma find_nearest_goal_spec (x_pos y_pos : ℤ) (g : ℤ × ℤ) (rest : List (ℤ × ℤ)) :
    ∃ i, ∃ hi : i < (g :: rest).length,
      find_nearest_goal x_pos y_pos (g :: rest)
        = (dist_key x_pos y_pos ((g :: rest).get ⟨i, hi⟩),
           get_xy_distance x_pos y_pos
             ((g :: rest).get ⟨i, hi⟩).1 ((g :: rest).get ⟨i, hi⟩).2)
      ∧ (∀ g' ∈ g :: rest,
          dist_key x_pos y_pos ((g :: rest).get ⟨i, hi⟩) ≤ dist_key x_pos y_pos g')
      ∧ (∀ j, ∀ hj : j < (g :: rest).length, j < i →
          dist_key x_pos y_pos ((g :: rest).get ⟨i, hi⟩) <
            dist_key x_pos y_pos ((g :: rest).get ⟨j, hj⟩)) := by
  have hkey := dist_key_def x_pos y_pos g
  have hstep : find_nearest_goal x_pos y_pos (g :: rest)
      = find_nearest_loop x_pos y_pos rest
          ((get_xy_distance x_pos y_pos g.1 g.2).1 ^ 2 +
            (get_xy_distance x_pos y_pos g.1 g.2).2 ^ 2)
          (get_xy_distance x_pos y_pos g.1 g.2).1
          (get_xy_distance x_pos y_pos g.1 g.2).2 := by
    unfold find_nearest_goal
    simp [find_nearest_loop]
  rcases find_nearest_loop_spec x_pos y_pos rest
      (get_xy_distance x_pos y_pos g.1 g.2).1
      (get_xy_distance x_pos y_pos g.1 g.2).2 with
    ⟨heq, hmin⟩ | ⟨i, hi, heq, hless, hmin, hstrict⟩
  · refine ⟨0, by simp, ?_, ?_, ?_⟩
    · rw [hstep, heq]
      simp [List.get_cons_zero, dist_key_def]
    · intro g' hg'
      rcases List.mem_cons.mp hg' with h | h
      · rw [h]
        simp [List.get_cons_zero]
      · simpa [List.get_cons_zero, hkey] using hmin g' h
    · intro j hj hj0
      omega
  · refine ⟨i + 1, by simpa using Nat.succ_lt_succ hi, ?_, ?_, ?_⟩
    · rw [hstep, heq]
      simp
    · intro g' hg'
      rcases List.mem_cons.mp hg' with h | h
      · have h2 : dist_key x_pos y_pos (rest.get ⟨i, hi⟩) < dist_key x_pos y_pos g' := by
          rw [h, hkey]
          exact hless
        simpa using le_of_lt h2
      · simpa using hmin g' h
    · intro j hj hji
      match j, hj with
      | 0, hj =>
        have h2 : dist_key x_pos y_pos (rest.get ⟨i, hi⟩) < dist_key x_pos y_pos g := by
          rw [hkey]
          exact hless
        simpa [List.get_cons_zero] using h2
      | j' + 1, hj =>
        have hj' : j' < rest.length := by simpa using hj
        have := hstrict j' hj' (by omega)
        simpa using this

/-- Claim C2: for every player position and every non-empty ordered list of
goal positions, the goal-selection loop of lines 84-98 computes the offset
`(dx, dy)` to a goal minimizing the Euclidean distance `sqrt(dx² + dy²)`
over the list, and because the comparison against the running best is a
strict less-than, every goal strictly earlier in iteration order than the
selected one is strictly farther — so among equally minimal goals the
earliest in iteration order is selected. -/
theorem C2_nearest_goal_selection (x_pos y_pos : ℤ) (goals : List (ℤ × ℤ))
    (hne : goals ≠ []) :
    ∃ i, ∃ hi : i < goals.length,
      (find_nearest_goal x_pos y_pos goals).2
        = get_xy_distance x_pos y_pos (goals.get ⟨i, hi⟩).1 (goals.get ⟨i, hi⟩).2
      ∧ (∀ j, ∀ hj : j < goals.length,
          Real.sqrt ((dist_key x_pos y_pos (goals.get ⟨i, hi⟩) : ℤ) : ℝ)
            ≤ Real.sqrt ((dist_key x_pos y_pos (goals.get ⟨j, hj⟩) : ℤ) : ℝ))
      ∧ (∀ j, ∀ hj : j < goals.length, j < i →
          Real.sqrt ((dist_key x_pos y_pos (goals.get ⟨i, hi⟩) : ℤ) : ℝ)
            < Real.sqrt ((dist_key x_pos y_pos (goals.get ⟨j, hj⟩) : ℤ) : ℝ)) := by
  rcases List.exists_cons_of_ne_nil hne with ⟨g, rest, rfl⟩
  rcases find_nearest_goal_spec x_pos y_pos g rest with ⟨i, hi, heq, hmin, hstrict⟩
  refine ⟨i, hi, ?_, ?_, ?_⟩
  · rw [heq]
  · intro j hj
    have h2 : dist_key x_pos y_pos ((g :: rest).get ⟨i, hi⟩)
        ≤ dist_key x_pos y_pos ((g :: rest).get ⟨j, hj⟩) :=
      hmin _ (List.get_mem _ _ _)
    exact Real.sqrt_le_sqrt (by exact_mod_cast h2)
  · intro j hj hji
    have h2 := hstrict j hj hji
    exact Real.sqrt_lt_sqrt
      (by exact_mod_cast dist_key_nonneg x_pos y_pos ((g :: rest).get ⟨i, hi⟩))
      (by exact_mod_cast h2)

/-- Every run of `get_next_move` ends in exactly one of three ways: the
advanced-mode lift (which flips `target_pod_acquired`), a move from the
advanced-mode pod-approach branch (state unchanged), or the goal-seeking
code with the obstacle flag set to `need_to_find_target_pod` (state
unchanged). -/
lemma get_next_move_cases (s : YourAgent) (sd : SensorData) :
    (s.need_to_find_target_pod = true ∧ s.target_pod_acquired = false ∧
      (get_xy_distance sd.PLAYER_LOCATION.1 sd.PLAYER_LOCATION.2
        sd.TARGET_POD_LOCATION.1 sd.TARGET_POD_LOCATION.2).1 = 0 ∧
      (get_xy_distance sd.PLAYER_LOCATION.1 sd.PLAYER_LOCATION.2
        sd.TARGET_POD_LOCATION.1 sd.TARGET_POD_LOCATION.2).2 = 0 ∧
      get_next_move s sd =
        (DriveMove.LIFT_POD, { s with target_pod_acquired := true }))
    ∨ (∃ m, s.need_to_find_target_pod = true ∧
        go_to_target_pod sd.PLAYER_LOCATION.1 sd.PLAYER_LOCATION.2
          (get_xy_distance sd.PLAYER_LOCATION.1 sd.PLAYER_LOCATION.2
            sd.TARGET_POD_LOCATION.1 sd.TARGET_POD_LOCATION.2).1
          (get_xy_distance sd.PLAYER_LOCATION.1 sd.PLAYER_LOCATION.2
            sd.TARGET_POD_LOCATION.1 sd.TARGET_POD_LOCATION.2).2
          sd.DRIVE_LOCATIONS = some m ∧
        get_next_move s sd = (m, s))
    ∨ get_next_move s sd =
        (goal_seek_move sd.PLAYER_LOCATION.1 sd.PLAYER_LOCATION.2
          sd.GOAL_LOCATIONS sd.DRIVE_LOCATIONS sd.POD_LOCATIONS
          s.need_to_find_target_pod, s) := by
  by_cases hn : s.need_to_find_target_pod = true
  · by_cases hc : (get_xy_distance sd.PLAYER_LOCATION.1 sd.PLAYER_LOCATION.2
        sd.TARGET_POD_LOCATION.1 sd.TARGET_POD_LOCATION.2).1 = 0 ∧
        (get_xy_distance sd.PLAYER_LOCATION.1 sd.PLAYER_LOCATION.2
          sd.TARGET_POD_LOCATION.1 sd.TARGET_POD_LOCATION.2).2 = 0 ∧
        s.target_pod_acquired = false
    · left
      refine ⟨hn, hc.2.2, hc.1, hc.2.1, ?_⟩
      unfold get_next_move
      simp only [hn, if_true]
      rw [if_pos hc]
    · rcases hg : go_to_target_pod sd.PLAYER_LOCATION.1 sd.PLAYER_LOCATION.2
          (get_xy_distance sd.PLAYER_LOCATION.1 sd.PLAYER_LOCATION.2
            sd.TARGET_POD_LOCATION.1 sd.TARGET_POD_LOCATION.2).1
          (get_xy_distance sd.PLAYER_LOCATION.1 sd.PLAYER_LOCATION.2
            sd.TARGET_POD_LOCATION.1 sd.TARGET_POD_LOCATION.2).2
          sd.DRIVE_LOCATIONS with _ | m
      · right; right
        unfold get_next_move
        simp only [hn, if_true]
        rw [if_neg hc]
        simp only [hg, hn]
      · right; left
        refine ⟨m, hn, rfl, ?_⟩
        unfold get_next_move
        simp only [hn, if_true]
        rw [if_neg hc]
        simp only [hg]
  · right; right
    unfold get_next_move
    simp only [Bool.not_eq_true] at hn
    simp only [hn]
    rfl

lemma go_to_target_pod_tile_free {x y dx dy : ℤ} {dr : List (ℤ × ℤ)}
    {m : DriveMove} {t : ℤ × ℤ} (hm : go_to_target_pod x y dx dy dr = some m)
    (h : move_target_tile x y m = some t) :
    drive_at_loc dr t.1 t.2 = false := by
  rcases go_to_target_pod_some hm with
    ⟨hm', _, hd⟩ | ⟨hm', _, hd⟩ | ⟨hm', _, hd⟩ | ⟨hm', _, hd⟩ <;>
    subst hm' <;>
    simp only [move_target_tile, Option.some.injEq] at h <;>
    rw [← h] <;>
    simpa using hd

lemma goal_seek_move_tile_free {x y : ℤ} {goals dr po : List (ℤ × ℤ)}
    {adv : Bool} {t : ℤ × ℤ}
    (h : move_target_tile x y (goal_seek_move x y goals dr po adv) = some t) :
    obstacle_at_loc t.1 t.2 dr po adv = false := by
  rcases goal_seek_move_cases x y goals dr po adv with
    ⟨hm, hob⟩ | ⟨hm, hob⟩ | ⟨hm, hob⟩ | ⟨hm, hob⟩ | hm <;>
    rw [hm] at h
  · simp only [move_target_tile, Option.some.injEq] at h
    rw [← h]
    simpa using hob
  · simp only [move_target_tile, Option.some.injEq] at h
    rw [← h]
    simpa using hob
  · simp only [move_target_tile, Option.some.injEq] at h
    rw [← h]
    simpa using hob
  · simp only [move_target_tile, Option.some.injEq] at h
    rw [← h]
    simpa using hob
  · simp [move_target_tile] at h

/-- Claim C1 is false as stated: in advanced mode, with the target pod not
yet acquired, the pod-approach branch emits RIGHT onto the tile `(1, 0)`
although a pod occupies it, i.e. although `obstacle_at_loc` reports the
tile occupied for the current (advanced) mode. -/
theorem C1_counterexample :
    get_next_move ⟨0, true, false⟩ ⟨[], [(1, 0)], (0, 0), [], (2, 0)⟩ =
      (DriveMove.RIGHT, ⟨0, true, false⟩)
    ∧ move_target_tile 0 0 DriveMove.RIGHT = some (1, 0)
    ∧ obstacle_at_loc 1 0 [] [(1, 0)] true = true := by decide

/-- Claim C1 (amended): every movement move emitted by `get_next_move` is
onto a tile holding no drive, and every movement move emitted by the
goal-seeking and sidestep logic of lines 83-137 is onto a tile that is
unoccupied per `obstacle_at_loc` for the current mode; the advanced-mode
pod-approach branch, however, gates its moves against drives only, so in
advanced mode it may move onto a tile holding a pod (see the
counterexample). -/
theorem C1_move_gating (s : YourAgent) (sd : SensorData) (t : ℤ × ℤ)
    (x y : ℤ) (goals dr po : List (ℤ × ℤ)) (adv : Bool) (u : ℤ × ℤ) :
    (move_target_tile sd.PLAYER_LOCATION.1 sd.PLAYER_LOCATION.2
        (get_next_move s sd).1 = some t →
      drive_at_loc sd.DRIVE_LOCATIONS t.1 t.2 = false)
    ∧ (move_target_tile x y (goal_seek_move x y goals dr po adv) = some u →
      obstacle_at_loc u.1 u.2 dr po adv = false) := by
  constructor
  · intro h
    rcases get_next_move_cases s sd with
      ⟨_, _, _, _, heq⟩ | ⟨m, _, hg, heq⟩ | heq
    · rw [heq] at h
      simp [move_target_tile] at h
    · rw [heq] at h
      exact go_to_target_pod_tile_free hg h
    · rw [heq] at h
      have hob := goal_seek_move_tile_free h
      exact (obstacle_at_loc_false_iff.mp hob).1
  · intro h
    exact goal_seek_move_tile_free h

/-- Witness for the amended C1 at a concrete snapshot: the emitted move
steps onto a drive-free tile, and the goal-seek move onto an
oracle-unoccupied tile. -/
theorem C1_move_gating_witness :
    drive_at_loc [(1, 0)] 0 1 = false ∧ obstacle_at_loc 0 1 [(1, 0)] [] true = false := by
  constructor
  · exact (C1_move_gating ⟨0, false, false⟩ ⟨[(1, 0)], [], (0, 0), [(0, 3)], (0, 0)⟩
      (0, 1) 0 0 [(0, 3)] [(1, 0)] [] true (0, 1)).1 (by decide)
  · exact (C1_move_gating ⟨0, false, false⟩ ⟨[(1, 0)], [], (0, 0), [(0, 3)], (0, 0)⟩
      (0, 1) 0 0 [(0, 3)] [(1, 0)] [] true (0, 1)).2 (by decide)

/-- Claim C7: for every tile, drive list, pod list and mode flag, the
occupancy test `obstacle_at_loc` is true iff some drive position equals the
tile exactly, or the mode is advanced and some pod position equals the tile
exactly; in non-advanced mode the test reduces to the drive test alone (a
tile occupied only by a pod is reported unoccupied), and a move through a
pod-only tile is permitted (`move_to_x_target` emits it). -/
theorem C7_obstacle_oracle (x y : ℤ) (dr po : List (ℤ × ℤ)) (adv : Bool) :
    (obstacle_at_loc x y dr po adv = true ↔
      ((x, y) ∈ dr ∨ (adv = true ∧ (x, y) ∈ po)))
    ∧ obstacle_at_loc x y dr po false = drive_at_loc dr x y
    ∧ (∀ x0 y0 tx : ℤ, 0 < tx → (x0 + 1, y0) ∉ dr →
        move_to_x_target x0 y0 tx dr po false = some DriveMove.RIGHT) := by
  refine ⟨obstacle_at_loc_true_iff, by simp [obstacle_at_loc], ?_⟩
  intro x0 y0 tx htx hnd
  have hob : obstacle_at_loc (x0 + 1) y0 dr po false = false := by
    simp [obstacle_at_loc, drive_at_loc, hnd]
  unfold move_to_x_target
  rw [if_pos ⟨htx, hob⟩]

/-- Witness for C7 at concrete inputs: a pod-only tile blocks in advanced
mode, is unoccupied in basic mode, and is moved through in basic mode. -/
theorem C7_obstacle_oracle_witness :
    obstacle_at_loc 1 0 [] [(1, 0)] true = true
    ∧ obstacle_at_loc 1 0 [] [(1, 0)] false = false
    ∧ move_to_x_target 0 0 5 [] [(1, 0)] false = some DriveMove.RIGHT := by
  refine ⟨?_, ?_, ?_⟩
  · exact (C7_obstacle_oracle 1 0 [] [(1, 0)] true).1.mpr
      (Or.inr ⟨rfl, by decide⟩)
  · exact ((C7_obstacle_oracle 1 0 [] [(1, 0)] false).2.1).trans (by decide)
  · exact (C7_obstacle_oracle 1 0 [] [(1, 0)] false).2.2 0 0 5 (by decide)
      (by decide)

/-- Claim C3: in the goal-seeking phase, the directional attempt tries the
x-axis first and then the y-axis exactly when `|dx| > |dy|`, and otherwise
(ties included) the y-axis first and then the x-axis; a zero offset on an
axis yields no candidate from that axis; and every candidate an axis yields
is gated by the obstacle check (RIGHT/LEFT for positive/negative x-offsets,
UP/DOWN for positive/negative y-offsets, each with its target tile
unoccupied). -/
theorem C3_axis_priority (x y gx gy : ℤ) (dr po : List (ℤ × ℤ)) (adv : Bool) :
    (abs gx > abs gy →
      send_move_instruction x y gx gy dr po adv =
        Option.or (move_to_x_target x y gx dr po adv)
          (move_to_y_target x y gy dr po adv))
    ∧ (¬(abs gx > abs gy) →
      send_move_instruction x y gx gy dr po adv =
        Option.or (move_to_y_target x y gy dr po adv)
          (move_to_x_target x y gx dr po adv))
    ∧ move_to_x_target x y 0 dr po adv = none
    ∧ move_to_y_target x y 0 dr po adv = none
    ∧ (∀ m, move_to_x_target x y gx dr po adv = some m →
        (m = DriveMove.RIGHT ∧ 0 < gx ∧
          obstacle_at_loc (x + 1) y dr po adv = false) ∨
        (m = DriveMove.LEFT ∧ gx < 0 ∧
          obstacle_at_loc (x - 1) y dr po adv = false))
    ∧ (∀ m, move_to_y_target x y gy dr po adv = some m →
        (m = DriveMove.UP ∧ 0 < gy ∧
          obstacle_at_loc x (y + 1) dr po adv = false) ∨
        (m = DriveMove.DOWN ∧ gy < 0 ∧
          obstacle_at_loc x (y - 1) dr po adv = false)) := by
  refine ⟨?_, ?_, move_to_x_target_zero, move_to_y_target_zero,
    fun m h => move_to_x_target_some h, fun m h => move_to_y_target_some h⟩
  · intro hgt
    unfold send_move_instruction
    rw [if_pos hgt]
    rcases hx : move_to_x_target x y gx dr po adv with _ | mx <;>
      rcases hy : move_to_y_target x y gy dr po adv with _ | my <;>
      simp [Option.or]
  · intro hgt
    unfold send_move_instruction
    rw [if_neg hgt]
    rcases hx : move_to_x_target x y gx dr po adv with _ | mx <;>
      rcases hy : move_to_y_target x y gy dr po adv with _ | my <;>
      simp [Option.or]

/-- Witness for C3: the spec's own examples — offset (5, 1) with both tiles
free yields the horizontal move, and the exact tie (3, 3) yields the
vertical move (y-axis attempted first). -/
theorem C3_axis_priority_witness :
    send_move_instruction 0 0 5 1 [] [] false =
      Option.or (move_to_x_target 0 0 5 [] [] false)
        (move_to_y_target 0 0 1 [] [] false)
    ∧ send_move_instruction 0 0 3 3 [] [] false =
      Option.or (move_to_y_target 0 0 3 [] [] false)
        (move_to_x_target 0 0 3 [] [] false) := by
  constructor
  · exact (C3_axis_priority 0 0 5 1 [] [] false).1 (by decide)
  · exact (C3_axis_priority 0 0 3 3 [] [] false).2.1 (by decide)

lemma goal_seek_move_ne_lift (x y : ℤ) (goals dr po : List (ℤ × ℤ))
    (adv : Bool) : goal_seek_move x y goals dr po adv ≠ DriveMove.LIFT_POD := by
  rcases goal_seek_move_cases x y goals dr po adv with
    ⟨hm, _⟩ | ⟨hm, _⟩ | ⟨hm, _⟩ | ⟨hm, _⟩ | hm <;> rw [hm] <;> decide

lemma get_next_move_lift_iff (s : YourAgent) (sd : SensorData) :
    (get_next_move s sd).1 = DriveMove.LIFT_POD ↔
      (s.need_to_find_target_pod = true ∧ s.target_pod_acquired = false ∧
        sd.PLAYER_LOCATION = sd.TARGET_POD_LOCATION) := by
  constructor
  · intro h
    rcases get_next_move_cases s sd with
      ⟨hn, ha, hd1, hd2, heq⟩ | ⟨m, _, hg, heq⟩ | heq
    · refine ⟨hn, ha, ?_⟩
      unfold get_xy_distance at hd1 hd2
      simp only at hd1 hd2
      have hx : sd.PLAYER_LOCATION.1 = sd.TARGET_POD_LOCATION.1 := by omega
      have hy : sd.PLAYER_LOCATION.2 = sd.TARGET_POD_LOCATION.2 := by omega
      exact Prod.ext hx hy
    · rw [heq] at h
      simp only at h
      exfalso
      rcases go_to_target_pod_some hg with
        ⟨hm, _, _⟩ | ⟨hm, _, _⟩ | ⟨hm, _, _⟩ | ⟨hm, _, _⟩ <;> rw [hm] at h <;>
        exact absurd h (by decide)
    · rw [heq] at h
      simp only at h
      exact absurd h (goal_seek_move_ne_lift _ _ _ _ _ _)
  · rintro ⟨hn, ha, hp⟩
    have h1 : (get_xy_distance sd.PLAYER_LOCATION.1 sd.PLAYER_LOCATION.2
        sd.TARGET_POD_LOCATION.1 sd.TARGET_POD_LOCATION.2).1 = 0 := by
      rw [← hp]
      simp [get_xy_distance]
    have h2 : (get_xy_distance sd.PLAYER_LOCATION.1 sd.PLAYER_LOCATION.2
        sd.TARGET_POD_LOCATION.1 sd.TARGET_POD_LOCATION.2).2 = 0 := by
      rw [← hp]
      simp [get_xy_distance]
    unfold get_next_move
    simp only [hn, if_true]
    rw [if_pos ⟨h1, h2, ha⟩]

lemma get_next_move_state (s : YourAgent) (sd : SensorData) :
    (get_next_move s sd).2 = s ∨
      ((get_next_move s sd).1 = DriveMove.LIFT_POD ∧
        s.target_pod_acquired = false ∧
        (get_next_move s sd).2 = { s with target_pod_acquired := true }) := by
  rcases get_next_move_cases s sd with
    ⟨_, ha, _, _, heq⟩ | ⟨m, _, _, heq⟩ | heq
  · right
    rw [heq]
    exact ⟨rfl, ha, rfl⟩
  · left
    rw [heq]
  · left
    rw [heq]

lemma acquired_next_move (s : YourAgent) (sd : SensorData)
    (h : s.target_pod_acquired = true) :
    (get_next_move s sd).2 = s ∧ (get_next_move s sd).1 ≠ DriveMove.LIFT_POD := by
  have hne : (get_next_move s sd).1 ≠ DriveMove.LIFT_POD := by
    intro hl
    have h2 := (get_next_move_lift_iff s sd).mp hl
    rw [h] at h2
    exact absurd h2.2.1 (by decide)
  rcases get_next_move_state s sd with h2 | ⟨hl, _, _⟩
  · exact ⟨h2, hne⟩
  · exact absurd hl hne

lemma lift_updates_state (s : YourAgent) (sd : SensorData)
    (hl : (get_next_move s sd).1 = DriveMove.LIFT_POD) :
    (get_next_move s sd).2 = { s with target_pod_acquired := true } := by
  rcases get_next_move_cases s sd with
    ⟨_, _, _, _, heq⟩ | ⟨m, _, hg, heq⟩ | heq
  · rw [heq]
  · exfalso
    rw [heq] at hl
    simp only at hl
    rcases go_to_target_pod_some hg with
      ⟨hm, _, _⟩ | ⟨hm, _, _⟩ | ⟨hm, _, _⟩ | ⟨hm, _, _⟩ <;>
      rw [hm] at hl <;> exact absurd hl (by decide)
  · exfalso
    rw [heq] at hl
    simp only at hl
    exact absurd hl (goal_seek_move_ne_lift _ _ _ _ _ _)

lemma run_agent_count_zero (sds : List SensorData) :
    ∀ s : YourAgent, s.target_pod_acquired = true →
      (run_agent s sds).count DriveMove.LIFT_POD = 0 := by
  induction sds with
  | nil =>
    intro s _
    rfl
  | cons sd rest ih =>
    intro s h
    have h2 := acquired_next_move s sd h
    unfold run_agent
    rw [List.count_cons, h2.1, ih s h]
    simp [h2.2]

lemma run_agent_count_le_one (sds : List SensorData) :
    ∀ s : YourAgent, (run_agent s sds).count DriveMove.LIFT_POD ≤ 1 := by
  induction sds with
  | nil =>
    intro s
    simp [run_agent]
  | cons sd rest ih =>
    intro s
    unfold run_agent
    rw [List.count_cons]
    by_cases hl : (get_next_move s sd).1 = DriveMove.LIFT_POD
    · rw [lift_updates_state s sd hl,
        run_agent_count_zero rest { s with target_pod_acquired := true } rfl]
      simp [hl]
    · have := ih (get_next_move s sd).2
      simp [hl]
      omega

/-- Claim C4: over any sequence of `get_next_move` calls on one agent
instance, `target_pod_acquired` never reverts from true, it becomes true
exactly through a LIFT_POD call, LIFT_POD is returned precisely when the
(advanced-mode) agent is co-located with the target pod while the pod is
not yet acquired, and LIFT_POD appears at most once in any run.  (The
co-location trigger includes `need_to_find_target_pod = true`: a target pod
exists only in advanced mode, and the branch only runs there.) -/
theorem C4_lift_pod_once (s : YourAgent) (sd : SensorData)
    (sds : List SensorData) :
    ((get_next_move s sd).1 = DriveMove.LIFT_POD ↔
      (s.need_to_find_target_pod = true ∧ s.target_pod_acquired = false ∧
        sd.PLAYER_LOCATION = sd.TARGET_POD_LOCATION))
    ∧ (s.target_pod_acquired = true →
        (get_next_move s sd).2.target_pod_acquired = true ∧
          (get_next_move s sd).1 ≠ DriveMove.LIFT_POD)
    ∧ ((get_next_move s sd).2.target_pod_acquired = true →
        s.target_pod_acquired = true ∨
          (get_next_move s sd).1 = DriveMove.LIFT_POD)
    ∧ (run_agent s sds).count DriveMove.LIFT_POD ≤ 1 := by
  refine ⟨get_next_move_lift_iff s sd, ?_, ?_, run_agent_count_le_one sds s⟩
  · intro h
    have h2 := acquired_next_move s sd h
    exact ⟨by rw [h2.1]; exact h, h2.2⟩
  · intro h
    rcases get_next_move_state s sd with h2 | ⟨hl, _, _⟩
    · left
      rw [h2] at h
      exact h
    · right
      exact hl

/-- Witness for C4: a co-located advanced-mode agent emits LIFT_POD, and a
two-tick run starting there emits it at most once. -/
theorem C4_lift_pod_once_witness :
    (get_next_move ⟨0, true, false⟩ ⟨[], [], (0, 0), [], (0, 0)⟩).1 =
      DriveMove.LIFT_POD
    ∧ (run_agent ⟨0, true, false⟩
        [⟨[], [], (0, 0), [], (0, 0)⟩, ⟨[], [], (0, 0), [], (0, 0)⟩]).count
          DriveMove.LIFT_POD ≤ 1 := by
  constructor
  · exact (C4_lift_pod_once ⟨0, true, false⟩ ⟨[], [], (0, 0), [], (0, 0)⟩
      []).1.mpr ⟨rfl, rfl, rfl⟩
  · exact (C4_lift_pod_once ⟨0, true, false⟩ ⟨[], [], (0, 0), [], (0, 0)⟩
      [⟨[], [], (0, 0), [], (0, 0)⟩, ⟨[], [], (0, 0), [], (0, 0)⟩]).2.2.2

/-- Claim C5 fails on the code: with `target_pod_acquired` already true but
the target pod reported elsewhere, the vestigial
`if self.target_pod_acquired: pass` of lines 67-68 does not skip the
pod-approach branch, so `get_next_move` still emits a move toward the
target pod (here RIGHT toward `(2, 0)`) instead of resuming goal-seeking,
which at this snapshot would emit UP toward the goal `(0, 1)`. -/
theorem C5_acquired_branch_still_runs :
    get_next_move ⟨0, true, true⟩ ⟨[], [], (0, 0), [(0, 1)], (2, 0)⟩ =
      (DriveMove.RIGHT, ⟨0, true, true⟩)
    ∧ goal_seek_move 0 0 [(0, 1)] [] [] true = DriveMove.UP := by decide

/-- Claim C6 is false as stated: player `(0, 0)`, nearest goal `(2, 1)`
(so `dx = 2 ≠ 0`), the directional phase blocked, and both UP and DOWN
blocked; the claim then demands NONE with no horizontal sidestep, but the
source's independent `if goal_y != 0` block (line 126) still attempts
RIGHT then LEFT and emits LEFT. -/
theorem C6_counterexample :
    find_nearest_goal 0 0 [(2, 1)] = (5, 2, 1)
    ∧ send_move_instruction 0 0 2 1 [(1, 0), (0, 1), (0, -1)] [] false = none
    ∧ obstacle_at_loc 0 1 [(1, 0), (0, 1), (0, -1)] [] false = true
    ∧ obstacle_at_loc 0 (-1) [(1, 0), (0, 1), (0, -1)] [] false = true
    ∧ get_next_move ⟨0, false, false⟩
        ⟨[(1, 0), (0, 1), (0, -1)], [], (0, 0), [(2, 1)], (0, 0)⟩ =
        (DriveMove.LEFT, ⟨0, false, false⟩) := by decide

/-- Claim C6 (amended): when both axis attempts of goal-seeking fail, the
fallback sidestep attempts UP then DOWN when `dx ≠ 0` and then — not only
when `dx = 0` — RIGHT then LEFT when `dy ≠ 0`, each obstacle-gated; NONE is
returned exactly when every gated candidate is unavailable.  The result is
characterized exactly: UP iff `dx ≠ 0` with the tile above free; DOWN iff
`dx ≠ 0` with the tile above blocked and the tile below free; RIGHT iff the
vertical candidates are exhausted (`dx = 0` or both blocked), `dy ≠ 0` and
the tile to the right is free; LEFT likewise with the right tile blocked
and the left tile free; NONE iff both groups are exhausted. -/
theorem C6_sidestep_fallback (x y gx gy : ℤ) (goals dr po : List (ℤ × ℤ))
    (adv : Bool)
    (hgx : gx = (find_nearest_goal x y goals).2.1)
    (hgy : gy = (find_nearest_goal x y goals).2.2)
    (hsend : send_move_instruction x y gx gy dr po adv = none) :
    goal_seek_move x y goals dr po adv = side_step_move x y gx gy dr po adv
    ∧ (side_step_move x y gx gy dr po adv = DriveMove.UP ↔
        (gx ≠ 0 ∧ obstacle_at_loc x (y + 1) dr po adv = false))
    ∧ (side_step_move x y gx gy dr po adv = DriveMove.DOWN ↔
        (gx ≠ 0 ∧ obstacle_at_loc x (y + 1) dr po adv = true ∧
          obstacle_at_loc x (y - 1) dr po adv = false))
    ∧ (side_step_move x y gx gy dr po adv = DriveMove.RIGHT ↔
        ((gx = 0 ∨ (obstacle_at_loc x (y + 1) dr po adv = true ∧
            obstacle_at_loc x (y - 1) dr po adv = true)) ∧
          gy ≠ 0 ∧ obstacle_at_loc (x + 1) y dr po adv = false))
    ∧ (side_step_move x y gx gy dr po adv = DriveMove.LEFT ↔
        ((gx = 0 ∨ (obstacle_at_loc x (y + 1) dr po adv = true ∧
            obstacle_at_loc x (y - 1) dr po adv = true)) ∧
          gy ≠ 0 ∧ obstacle_at_loc (x + 1) y dr po adv = true ∧
          obstacle_at_loc (x - 1) y dr po adv = false))
    ∧ (side_step_move x y gx gy dr po adv = DriveMove.NONE ↔
        ((gx = 0 ∨ (obstacle_at_loc x (y + 1) dr po adv = true ∧
            obstacle_at_loc x (y - 1) dr po adv = true)) ∧
          (gy = 0 ∨ (obstacle_at_loc (x + 1) y dr po adv = true ∧
            obstacle_at_loc (x - 1) y dr po adv = true)))) := by
  constructor
  · simp only [goal_seek_move]
    rw [← hgx, ← hgy]
    simp only [hsend]
  · unfold side_step_move
    split_ifs with h1 h2 h3 h4 <;>
      refine ⟨?_, ?_, ?_, ?_, ?_⟩ <;>
      constructor <;>
      intro hh <;>
      simp_all <;>
      tauto

/-- Witness for the amended C6 at the counterexample snapshot: the tick's
move is the sidestep result, and that result is LEFT. -/
theorem C6_sidestep_fallback_witness :
    goal_seek_move 0 0 [(2, 1)] [(1, 0), (0, 1), (0, -1)] [] false =
      side_step_move 0 0 2 1 [(1, 0), (0, 1), (0, -1)] [] false
    ∧ side_step_move 0 0 2 1 [(1, 0), (0, 1), (0, -1)] [] false =
      DriveMove.LEFT := by
  have h := C6_sidestep_fallback 0 0 2 1 [(2, 1)] [(1, 0), (0, 1), (0, -1)] []
    false (by decide) (by decide) (by decide)
  exact ⟨h.1, (h.2.2.2.2.1).mpr (by decide)⟩

/-- Claim C8: in advanced mode with the pod unacquired, a nonzero offset to
the target pod and all four gated approach candidates blocked, control
falls through into nearest-goal selection and goal-seeking within the same
tick (the agent state unchanged). -/
theorem C8_pod_approach_fallthrough (s : YourAgent) (sd : SensorData)
    (hn : s.need_to_find_target_pod = true)
    (_ha : s.target_pod_acquired = false)
    (hoff : ¬((get_xy_distance sd.PLAYER_LOCATION.1 sd.PLAYER_LOCATION.2
        sd.TARGET_POD_LOCATION.1 sd.TARGET_POD_LOCATION.2).1 = 0 ∧
      (get_xy_distance sd.PLAYER_LOCATION.1 sd.PLAYER_LOCATION.2
        sd.TARGET_POD_LOCATION.1 sd.TARGET_POD_LOCATION.2).2 = 0))
    (hblocked : go_to_target_pod sd.PLAYER_LOCATION.1 sd.PLAYER_LOCATION.2
        (get_xy_distance sd.PLAYER_LOCATION.1 sd.PLAYER_LOCATION.2
          sd.TARGET_POD_LOCATION.1 sd.TARGET_POD_LOCATION.2).1
        (get_xy_distance sd.PLAYER_LOCATION.1 sd.PLAYER_LOCATION.2
          sd.TARGET_POD_LOCATION.1 sd.TARGET_POD_LOCATION.2).2
        sd.DRIVE_LOCATIONS = none) :
    get_next_move s sd =
      (goal_seek_move sd.PLAYER_LOCATION.1 sd.PLAYER_LOCATION.2
        sd.GOAL_LOCATIONS sd.DRIVE_LOCATIONS sd.POD_LOCATIONS true, s) := by
  unfold get_next_move
  simp only [hn, if_true]
  rw [if_neg fun hc => hoff ⟨hc.1, hc.2.1⟩]
  simp only [hblocked, hn]

/-- Witness for C8: a concrete blocked approach (drive on the only useful
tile) falls through to goal-seeking, which emits UP toward the goal. -/
theorem C8_pod_approach_fallthrough_witness :
    get_next_move ⟨0, true, false⟩ ⟨[(1, 0)], [], (0, 0), [(0, 5)], (2, 0)⟩ =
      (goal_seek_move 0 0 [(0, 5)] [(1, 0)] [] true, ⟨0, true, false⟩)
    ∧ goal_seek_move 0 0 [(0, 5)] [(1, 0)] [] true = DriveMove.UP := by
  constructor
  · exact C8_pod_approach_fallthrough ⟨0, true, false⟩
      ⟨[(1, 0)], [], (0, 0), [(0, 5)], (2, 0)⟩ rfl rfl (by decide) (by decide)
  · decide

/-- Claim C9 is false on the code: with an empty goal list (and goal-seeking
reached), `get_next_move` raises nothing — the source has no error path at
all — and returns an ordinary `DriveMove` (here DOWN) computed from the
`(-1, -1)` sentinel offset. -/
theorem C9_counterexample :
    get_next_move ⟨0, false, false⟩ ⟨[], [], (0, 0), [], (0, 0)⟩ =
      (DriveMove.DOWN, ⟨0, false, false⟩) := by decide

/-- Claim C9 (amended): when the goal list is empty and goal-seeking is
attempted, `get_next_move` does not fail: the scan leaves the sentinel
`(-1, -1, -1)`, the state is unchanged, the tick is exactly the
goal-seeking move at the sentinel offset, and the result is one of the
ordinary `DriveMove` values. -/
theorem C9_empty_goals_no_error (s : YourAgent) (sd : SensorData)
    (hn : s.need_to_find_target_pod = false)
    (hg : sd.GOAL_LOCATIONS = []) :
    find_nearest_goal sd.PLAYER_LOCATION.1 sd.PLAYER_LOCATION.2
        sd.GOAL_LOCATIONS = (-1, -1, -1)
    ∧ get_next_move s sd =
      (goal_seek_move sd.PLAYER_LOCATION.1 sd.PLAYER_LOCATION.2 []
        sd.DRIVE_LOCATIONS sd.POD_LOCATIONS false, s)
    ∧ ((get_next_move s sd).1 = DriveMove.DOWN ∨
       (get_next_move s sd).1 = DriveMove.LEFT ∨
       (get_next_move s sd).1 = DriveMove.UP ∨
       (get_next_move s sd).1 = DriveMove.RIGHT ∨
       (get_next_move s sd).1 = DriveMove.NONE) := by
  have hmain : get_next_move s sd =
      (goal_seek_move sd.PLAYER_LOCATION.1 sd.PLAYER_LOCATION.2 []
        sd.DRIVE_LOCATIONS sd.POD_LOCATIONS false, s) := by
    unfold get_next_move
    simp only [hn, Bool.false_eq_true, if_false]
    rw [hg]
  refine ⟨by rw [hg]; rfl, hmain, ?_⟩
  rw [hmain]
  simp only
  rcases goal_seek_move_cases sd.PLAYER_LOCATION.1 sd.PLAYER_LOCATION.2 []
      sd.DRIVE_LOCATIONS sd.POD_LOCATIONS false with
    ⟨hm, _⟩ | ⟨hm, _⟩ | ⟨hm, _⟩ | ⟨hm, _⟩ | hm <;> rw [hm] <;> tauto

/-- Witness for the amended C9 at a concrete empty-goal snapshot. -/
theorem C9_empty_goals_no_error_witness :
    find_nearest_goal 0 0 ([] : List (ℤ × ℤ)) = (-1, -1, -1)
    ∧ get_next_move ⟨0, false, false⟩ ⟨[], [], (0, 0), [], (0, 0)⟩ =
      (goal_seek_move 0 0 [] [] [] false, ⟨0, false, false⟩) := by
  have h := C9_empty_goals_no_error ⟨0, false, false⟩
    ⟨[], [], (0, 0), [], (0, 0)⟩ rfl rfl
  exact ⟨h.1, h.2.1⟩

/-- Claim C10: for every snapshot with an empty goal list reaching the
goal-seeking phase, `get_next_move` does not raise: with the sentinel
offset `(-1, -1)` it attempts DOWN first (returned when the tile one step
down is unoccupied), then LEFT, then the remaining sidestep candidates
(UP, then RIGHT — the DOWN and LEFT retries of the sidestep are already
known blocked), and NONE only when all four are blocked. -/
theorem C10_empty_goals_behavior (x y : ℤ) (dr po : List (ℤ × ℤ)) (adv : Bool)
    (s : YourAgent) (sd : SensorData)
    (hn : s.need_to_find_target_pod = false)
    (hg : sd.GOAL_LOCATIONS = []) :
    goal_seek_move x y [] dr po adv =
      (if obstacle_at_loc x (y - 1) dr po adv = false then DriveMove.DOWN
       else if obstacle_at_loc (x - 1) y dr po adv = false then DriveMove.LEFT
       else if obstacle_at_loc x (y + 1) dr po adv = false then DriveMove.UP
       else if obstacle_at_loc (x + 1) y dr po adv = false then DriveMove.RIGHT
       else DriveMove.NONE)
    ∧ (get_next_move s sd).1 =
      goal_seek_move sd.PLAYER_LOCATION.1 sd.PLAYER_LOCATION.2 []
        sd.DRIVE_LOCATIONS sd.POD_LOCATIONS false := by
  constructor
  · have h1 : ¬(abs (-1 : ℤ) > abs (-1 : ℤ)) := by norm_num
    have h2 : ¬((-1 : ℤ) > 0) := by norm_num
    have h3 : (-1 : ℤ) < 0 := by norm_num
    have h4 : (-1 : ℤ) ≠ 0 := by norm_num
    by_cases hdown : obstacle_at_loc x (y - 1) dr po adv = false <;>
      by_cases hleft : obstacle_at_loc (x - 1) y dr po adv = false <;>
      by_cases hup : obstacle_at_loc x (y + 1) dr po adv = false <;>
      by_cases hright : obstacle_at_loc (x + 1) y dr po adv = false <;>
      simp [goal_seek_move, find_nearest_goal, find_nearest_loop,
        send_move_instruction, move_to_x_target, move_to_y_target,
        side_step_move, h1, h2, h3, h4, hdown, hleft, hup, hright]
  · unfold get_next_move
    simp only [hn, Bool.false_eq_true, if_false]
    rw [hg]

/-- Witness for C10 at a concrete empty-goal snapshot with the tile below
blocked and the left tile free: the agent emits LEFT. -/
theorem C10_empty_goals_behavior_witness :
    goal_seek_move 0 0 [] [(0, -1)] [] false =
      (if obstacle_at_loc 0 (0 - 1) [(0, -1)] [] false = false then
        DriveMove.DOWN
       else if obstacle_at_loc (0 - 1) 0 [(0, -1)] [] false = false then
        DriveMove.LEFT
       else if obstacle_at_loc 0 (0 + 1) [(0, -1)] [] false = false then
        DriveMove.UP
       else if obstacle_at_loc (0 + 1) 0 [(0, -1)] [] false = false then
        DriveMove.RIGHT
       else DriveMove.NONE)
    ∧ goal_seek_move 0 0 [] [(0, -1)] [] false = DriveMove.LEFT := by
  constructor
  · exact (C10_empty_goals_behavior 0 0 [(0, -1)] [] false ⟨0, false, false⟩
      ⟨[(0, -1)], [], (0, 0), [], (0, 0)⟩ rfl rfl).1
  · decide

/-- Witness for C2 at the spec's own example: goals at offsets `(3, 0)` and
`(1, 1)` from the player at the origin. -/
theorem C2_nearest_goal_selection_witness :
    ([(3, 0), (1, 1)] : List (ℤ × ℤ)) ≠ []
    ∧ ∃ i, ∃ hi : i < ([(3, 0), (1, 1)] : List (ℤ × ℤ)).length,
        (find_nearest_goal 0 0 ([(3, 0), (1, 1)] : List (ℤ × ℤ))).2
          = get_xy_distance 0 0
              (([(3, 0), (1, 1)] : List (ℤ × ℤ)).get ⟨i, hi⟩).1
              (([(3, 0), (1, 1)] : List (ℤ × ℤ)).get ⟨i, hi⟩).2
        ∧ (∀ j, ∀ hj : j < ([(3, 0), (1, 1)] : List (ℤ × ℤ)).length,
            Real.sqrt
                ((dist_key 0 0 (([(3, 0), (1, 1)] : List (ℤ × ℤ)).get ⟨i, hi⟩) : ℤ) : ℝ)
              ≤ Real.sqrt
                ((dist_key 0 0 (([(3, 0), (1, 1)] : List (ℤ × ℤ)).get ⟨j, hj⟩) : ℤ) : ℝ))
        ∧ (∀ j, ∀ hj : j < ([(3, 0), (1, 1)] : List (ℤ × ℤ)).length, j < i →
            Real.sqrt
                ((dist_key 0 0 (([(3, 0), (1, 1)] : List (ℤ × ℤ)).get ⟨i, hi⟩) : ℤ) : ℝ)
              < Real.sqrt
                ((dist_key 0 0 (([(3, 0), (1, 1)] : List (ℤ × ℤ)).get ⟨j, hj⟩) : ℤ) : ℝ)) :=
  ⟨by decide,
    C2_nearest_goal_selection 0 0 ([(3, 0), (1, 1)] : List (ℤ × ℤ)) (by decide)⟩
